import Mathlib

/-!
Verification development for the Amazon-Review-Scraper extension.

The definitions below are a shallow embedding of the TypeScript sources:
  * `src/content/index.ts`  — content script (session store, page inspector,
    extraction, traversal controller, CSV download)
  * `src/background/index.ts` — background worker (start/stop handlers,
    CSV export handler)
  * `src/types.ts` — shared data types (Review, ScrapeSession, STAR_FILTERS)

DOM state is embedded as an explicit `PageState` record capturing the answers
the content script's queries read from the rendered page; `chrome.storage.local`
and `localStorage` are embedded as a `Storage` record; side effects (clicks,
downloads, alerts, persistence) are reified as an explicit `Effect` trace.
-/

namespace Scraper

/-- JavaScript `a || b` on a possibly-missing string: both `undefined`
(here `none`) and the empty string are falsy and fall back to the default.
Models the `(el as HTMLElement)?.innerText?.trim() || fallback` pattern. -/
def jsOr (o : Option String) (d : String) : String :=
  match o with
  | none => d
  | some s => if s = "" then d else s

/-- From `src/types.ts`: `STAR_FILTERS` constant, the fixed ordered FilterSet. -/
def STAR_FILTERS : List String :=
  ["one_star", "two_star", "three_star", "four_star", "five_star"]

/-- From `src/types.ts`: `STAR_LABELS` record mapping filter ids to labels. -/
def STAR_LABELS (f : String) : String :=
  if f = "one_star" then "1★"
  else if f = "two_star" then "2★"
  else if f = "three_star" then "3★"
  else if f = "four_star" then "4★"
  else if f = "five_star" then "5★"
  else ""

/-- From `src/types.ts`: the `Review` type (one scraped review). -/
structure Review where
  id : String
  author : String
  starRating : String
  title : String
  date : String
  content : String
  verified : Bool
  variant : String
  images : List String
  starFilter : Option String
  pageNumber : Option Nat
deriving DecidableEq, Repr

/-- From `src/types.ts`: the `ScrapeSession` type (the single mutable
aggregate persisted across page reloads). -/
structure ScrapeSession where
  isActive : Bool
  reviews : List Review
  currentStarIndex : Nat
  currentPage : Nat
  lastUrl : String
  startedAt : Nat
  lastUpdated : Nat
deriving DecidableEq, Repr

/-- One review-card element (`li[data-hook="review"]`) as the extractor
reads it. `Option` fields are `none` when the queried sub-element is
missing; `some ""` when present but with empty trimmed text. `ok = false`
embeds a card whose field accesses throw (the per-card `try`/`catch`). -/
structure Card where
  ok : Bool
  idAttr : String
  author : Option String
  rating : Option String
  title : Option String
  date : Option String
  content : Option String
  verified : Bool
  variant : Option String
deriving DecidableEq, Repr

/-- Synthetic id fallback from `extractReviews`:
`card.id || review-(Date.now())-(index)`. -/
def cardId (c : Card) (idx now : Nat) : String :=
  if c.idAttr = "" then "review-" ++ toString now ++ "-" ++ toString idx
  else c.idAttr

/-- The record built for one successfully parsed card in `extractReviews`
(`src/content/index.ts` lines 182-209). -/
def extractOne (c : Card) (star : String) (pageNum idx now : Nat) : Review :=
  { id := cardId c idx now
    author := jsOr c.author "Anonymous"
    starRating := jsOr c.rating "N/A"
    title := jsOr c.title ""
    date := jsOr c.date ""
    content := jsOr c.content ""
    verified := c.verified
    variant := jsOr c.variant ""
    images := []
    starFilter := some (STAR_LABELS star)
    pageNumber := some pageNum }

/-- The `reviewCards.forEach` loop of `extractReviews`, threading the card
index (used for synthetic ids). A card that throws (`ok = false`) is caught
and skipped; a card whose extracted body text is empty is dropped. -/
def extractAux (star : String) (pageNum now : Nat) : Nat → List Card → List Review
  | _, [] => []
  | idx, c :: cs =>
    if c.ok then
      if jsOr c.content "" ≠ "" then
        extractOne c star pageNum idx now :: extractAux star pageNum now (idx + 1) cs
      else extractAux star pageNum now (idx + 1) cs
    else extractAux star pageNum now (idx + 1) cs

/-- From `src/content/index.ts`: `extractReviews(starFilter, pageNum)`,
with the page's review cards and the clock made explicit. -/
def extractReviews (cards : List Card) (star : String) (pageNum now : Nat) :
    List Review :=
  extractAux star pageNum now 0 cards

/-- The rendered page as the content script's queries observe it.
`urlFilter` / `urlPage` are the `filterByStar` / `pageNumber` URL query
parameters; `urlPageAfterNext` is the page number the URL shows when
`getCurrentPageNumber` is re-read after clicking next and waiting;
`nextEnabled` answers `hasNextPage` (non-disabled next link present),
`nextAnchor` answers `clickNextPage` (any next anchor present);
the three filter-control fields feed the three `clickStarFilter`
strategies (histogram rows, direct href links, dropdown options). -/
structure PageState where
  url : String
  cards : List Card
  noReviewsMarker : Bool
  captcha : Bool
  urlFilter : Option String
  urlPage : Option Nat
  urlPageAfterNext : Option Nat
  nextEnabled : Bool
  nextAnchor : Bool
  histogramFilters : List String
  hrefFilters : List String
  dropdownOptions : Option (List String)
  isProductPage : Bool
  seeAllLink : Option String
deriving DecidableEq, Repr

/-- Delay configuration `{min, max}` persisted by the settings form. -/
structure DelayCfg where
  min : Nat
  max : Nat
deriving DecidableEq, Repr

/-- The two storage tiers plus the other persisted keys the scripts read:
`localTier` is `localStorage[STORAGE_KEY]`, `chromeTier` is
`chrome.storage.local[STORAGE_KEY]`, and `isScanning` / `delaySettings`
are the corresponding `chrome.storage.local` keys. -/
structure Storage where
  localTier : Option ScrapeSession
  chromeTier : Option ScrapeSession
  isScanning : Bool
  delaySettings : Option DelayCfg
deriving DecidableEq, Repr

/-- Observable side effects of one controller tick, in program order. -/
inductive Effect where
  | activateFilterClick (f : String)
  | nextPageClick
  | download (rs : List Review)
  | clearStorage
  | saveEff (s : ScrapeSession)
  | alertShown
  | navigate (u : String)
  | logMsg (m : String)
deriving DecidableEq, Repr

/-- From `src/content/index.ts`: `getCurrentStarFilter()` — the
`filterByStar` URL parameter, validated against `STAR_FILTERS`. -/
def getCurrentStarFilter (p : PageState) : Option String :=
  match p.urlFilter with
  | some f => if STAR_FILTERS.contains f then some f else none
  | none => none

/-- From `src/content/index.ts`: `getCurrentPageNumber()` — the
`pageNumber` URL parameter, defaulting to 1 when absent. -/
def getCurrentPageNumber (p : PageState) : Nat :=
  p.urlPage.getD 1

/-- From `src/content/index.ts`: `hasNextPage()`. -/
def hasNextPage (p : PageState) : Bool := p.nextEnabled

/-- From `src/content/index.ts`: `clickNextPage()` — returns whether a
next anchor existed and was clicked. -/
def clickNextPage (p : PageState) : Bool := p.nextAnchor

/-- From `src/content/index.ts`: `clickStarFilter(starFilter)` — tries
the histogram rows, then direct href links, then the dropdown, returning
success of the first applicable strategy. -/
def clickStarFilter (p : PageState) (f : String) : Bool :=
  p.histogramFilters.contains f || p.hrefFilters.contains f ||
    (match p.dropdownOptions with
     | some opts => opts.contains f
     | none => false)

/-- The session's expected filter, `STAR_FILTERS[session.currentStarIndex]`. -/
def expectedFilter (s : ScrapeSession) : String :=
  STAR_FILTERS.getD s.currentStarIndex ""

/-- From `src/content/index.ts`: `saveSession(session)` — stamps
`lastUpdated` and writes the session to both tiers. -/
def saveSession (st : Storage) (s : ScrapeSession) (now : Nat) :
    Storage × ScrapeSession :=
  let s2 := { s with lastUpdated := now }
  ({ st with localTier := some s2, chromeTier := some s2 }, s2)

/-- From `src/content/index.ts`: `clearSession()` — removes the session
from both tiers. -/
def clearSession (st : Storage) : Storage :=
  { st with localTier := none, chromeTier := none }

/-- From `src/content/index.ts`: `getOrCreateSession()` — fast tier first,
then durable tier; when both are absent, create an active fresh session
only if the `isScanning` start signal is set, otherwise an inactive one. -/
def getOrCreateSession (st : Storage) (url : String) (now : Nat) :
    ScrapeSession :=
  match st.localTier with
  | some s => s
  | none =>
    match st.chromeTier with
    | some s => s
    | none =>
      if st.isScanning then
        { isActive := true, reviews := [], currentStarIndex := 0,
          currentPage := 1, lastUrl := "", startedAt := now, lastUpdated := now }
      else
        { isActive := false, reviews := [], currentStarIndex := 0,
          currentPage := 1, lastUrl := url, startedAt := now, lastUpdated := now }

/-- From `src/content/index.ts`: `switchToNextFilter(session)` — increments
`currentStarIndex`, resets `currentPage`; past the last filter it downloads
the CSV, clears the session and ends the scan; otherwise it persists and
clicks the next filter, marking the session inactive when no click
strategy succeeds. -/
def switchToNextFilter (st : Storage) (s : ScrapeSession) (p : PageState)
    (now : Nat) : Storage × ScrapeSession × List Effect :=
  let s1 := { s with currentStarIndex := s.currentStarIndex + 1, currentPage := 1 }
  if s1.currentStarIndex ≥ STAR_FILTERS.length then
    (clearSession { st with isScanning := false }, s1,
      [Effect.download s1.reviews, Effect.clearStorage, Effect.alertShown])
  else
    let nextF := STAR_FILTERS.getD s1.currentStarIndex ""
    let r2 := saveSession st s1 now
    if clickStarFilter p nextF then
      (r2.1, r2.2, [Effect.saveEff r2.2, Effect.activateFilterClick nextF])
    else
      let s3 := { r2.2 with isActive := false }
      let r3 := saveSession { r2.1 with isScanning := false } s3 now
      (r3.1, r3.2, [Effect.saveEff r2.2, Effect.saveEff r3.2, Effect.alertShown])

/-- The extraction block of `scrapeCurrentPage` (lines 383-405): extract,
and only when at least one review came back, append, set `currentPage`
and persist; a zero-review page is only logged. -/
def extractionStep (st : Storage) (s : ScrapeSession) (p : PageState)
    (now : Nat) : Storage × ScrapeSession × List Effect :=
  let pageNum := getCurrentPageNumber p
  let rs := extractReviews p.cards (expectedFilter s) pageNum now
  if rs = [] then
    (st, s, [Effect.logMsg "No reviews found on this page"])
  else
    let s1 := { s with reviews := s.reviews ++ rs, currentPage := pageNum }
    let r2 := saveSession st s1 now
    (r2.1, r2.2, [Effect.saveEff r2.2])

/-- The pagination block of `scrapeCurrentPage` (lines 407-448): when a
next page exists, wait and click it; a click after which the observed page
number is unchanged falls through to the filter switch; when no next page
exists, switch filters directly. -/
def paginationStep (st : Storage) (s : ScrapeSession) (p : PageState)
    (now : Nat) : Storage × ScrapeSession × List Effect :=
  if hasNextPage p then
    let oldPage := getCurrentPageNumber p
    if clickNextPage p then
      let newPage := p.urlPageAfterNext.getD 1
      if newPage = oldPage then
        let r := switchToNextFilter st s p now
        (r.1, r.2.1, Effect.nextPageClick :: r.2.2)
      else
        (st, s, [Effect.nextPageClick])
    else
      (st, s, [])
  else
    switchToNextFilter st s p now

/-- From `src/content/index.ts`: `scrapeCurrentPage(session)` — when the
URL shows no filter and clicking the expected filter succeeds, the tick
stops there; otherwise extraction then pagination run. -/
def scrapeCurrentPage (st : Storage) (s : ScrapeSession) (p : PageState)
    (now : Nat) : Storage × ScrapeSession × List Effect :=
  let expected := expectedFilter s
  if (getCurrentStarFilter p).isNone && clickStarFilter p expected then
    (st, s, [Effect.activateFilterClick expected])
  else
    let r1 := extractionStep st s p now
    let r2 := paginationStep r1.1 r1.2.1 p now
    (r2.1, r2.2.1, r1.2.2 ++ r2.2.2)

/-- The content script's module-level mutable state feeding `mainController`. -/
structure Env where
  storage : Storage
  lastProcessedUrl : String
deriving DecidableEq, Repr

/-- From `src/content/index.ts`: `mainController()` — one controller tick:
readiness gate, captcha gate, session load, inactivity gate, product-page
redirect, same-URL de-duplication, then `scrapeCurrentPage`. -/
def tick (env : Env) (p : PageState) (now : Nat) : Env × List Effect :=
  if p.cards.isEmpty && !p.noReviewsMarker then (env, [])
  else if p.captcha then (env, [Effect.alertShown])
  else
    let s := getOrCreateSession env.storage p.url now
    if !s.isActive then (env, [])
    else if p.isProductPage && p.seeAllLink.isSome then
      (env, [Effect.navigate (p.seeAllLink.getD "")])
    else if p.url = env.lastProcessedUrl then (env, [])
    else
      let s1 := { s with lastUrl := p.url }
      let res := scrapeCurrentPage env.storage s1 p now
      ({ storage := res.1, lastProcessedUrl := p.url }, res.2.2)

/-- Repeated controller ticks (the 1-second interval timer), each fed the
page state and clock at its firing time. -/
def runTicks (env : Env) : List (PageState × Nat) → Env × List Effect
  | [] => (env, [])
  | (p, now) :: rest =>
    let r1 := tick env p now
    let r2 := runTicks r1.1 rest
    (r2.1, r1.2 ++ r2.2)

/-- From `src/background/index.ts`: `handleStopScraping()` — sets the
`isScanning` key to false; it touches nothing else. -/
def handleStopScraping (st : Storage) : Storage :=
  { st with isScanning := false }

/-- From `src/background/index.ts`: `handleStartScraping()` — sets the
`isScanning` key to true (the tab reload is an external navigation). -/
def handleStartScraping (st : Storage) : Storage :=
  { st with isScanning := true }

/-- JavaScript `s.replace(/"/g, doubled)` — every double-quote character
doubled (the pattern is a single character, so the global regex replace
is a per-character transform). -/
def escapeQuotes (s : String) : String :=
  ⟨s.data.foldr (fun ch acc => if ch = '\"' then '\"' :: '\"' :: acc else ch :: acc) []⟩

/-- JavaScript `s.replace(/\n/g, space)` — every newline character
replaced by a space. -/
def collapseNewlines (s : String) : String :=
  ⟨s.data.map (fun ch => if ch = '\n' then ' ' else ch)⟩

/-- The exact header row built by both CSV serializers. -/
def csvHeader : String :=
  String.intercalate ","
    ["Star Filter", "Page", "ID", "Author", "Rating", "Title", "Date",
     "Variant", "Verified", "Review Body"]

/-- The ten cell strings of one CSV row, exactly as both `downloadCSV`
(content, lines 331-343) and `handleDownloadCSV` (background, lines
143-154) build them. -/
def csvRowCells (r : Review) : List String :=
  [ jsOr r.starFilter "N/A",
    (match r.pageNumber with | some n => toString n | none => "N/A"),
    "\"" ++ escapeQuotes r.id ++ "\"",
    "\"" ++ escapeQuotes r.author ++ "\"",
    "\"" ++ r.starRating ++ "\"",
    "\"" ++ escapeQuotes r.title ++ "\"",
    "\"" ++ r.date ++ "\"",
    "\"" ++ r.variant ++ "\"",
    (if r.verified then "Yes" else "No"),
    "\"" ++ collapseNewlines (escapeQuotes r.content) ++ "\"" ]

/-- One serialized CSV row: `values.join(s!)` with a comma. -/
def csvRowString (r : Review) : String :=
  String.intercalate "," (csvRowCells r)

/-- The `csvRows` array: header first, then one row per review in order. -/
def csvRows (rs : List Review) : List String :=
  csvHeader :: rs.map csvRowString

/-- `csvRows.join` with a newline: the CSV body before the BOM. -/
def csvContentStr (rs : List Review) : String :=
  String.intercalate "\n" (csvRows rs)

/-- The UTF-8 byte-order-mark prefix both serializers prepend. -/
def bom : String := "\uFEFF"

/-- The full serialized CSV: BOM followed by the joined rows. -/
def csvWithBom (rs : List Review) : String :=
  bom ++ csvContentStr rs

/-- The `{success, csv?, error?}` object `handleDownloadCSV` answers with. -/
structure ExportResult where
  success : Bool
  csv : Option String
  error : Option String
deriving DecidableEq, Repr

/-- From `src/background/index.ts`: `handleDownloadCSV()` — reads the
session from `chrome.storage.local` only (the durable tier); with no
session or zero reviews it fails with a fixed error string, otherwise it
returns the BOM-prefixed CSV. -/
def handleDownloadCSV (st : Storage) : ExportResult :=
  match st.chromeTier with
  | none => { success := false, csv := none, error := some "No reviews to export" }
  | some s =>
    if s.reviews = [] then
      { success := false, csv := none, error := some "No reviews to export" }
    else
      { success := true, csv := some (csvWithBom s.reviews), error := none }

/-- From `src/content/index.ts` line 411: the effective minimum delay,
`delaySettings?.min || DELAY_BETWEEN_PAGES_MIN` — absent settings and a
falsy (zero) configured value both fall back to 2000. -/
def effectiveMinDelay (st : Storage) : Nat :=
  match st.delaySettings with
  | none => 2000
  | some d => if d.min = 0 then 2000 else d.min

/-- From `src/content/index.ts` line 412: the effective maximum delay,
`delaySettings?.max || DELAY_BETWEEN_PAGES_MAX`, defaulting to 5000. -/
def effectiveMaxDelay (st : Storage) : Nat :=
  match st.delaySettings with
  | none => 5000
  | some d => if d.max = 0 then 5000 else d.max

/-- From `src/content/index.ts` line 413: the wait computed before each
page advance, `Math.floor(Math.random() * (maxDelay - minDelay)) + minDelay`,
with the `Math.random()` draw `r` made explicit as a rational in `[0, 1)`. -/
def waitTime (mn mx : Nat) (r : ℚ) : ℤ :=
  Int.floor (r * ((mx : ℚ) - (mn : ℚ))) + mn

/-- From `src/content/index.ts` line 27: the unused helper `randomDelay`,
whose draw `Math.floor(Math.random() * (max - min + 1) + min)` does cover
the inclusive range. -/
def randomDelayDraw (mn mx : Nat) (r : ℚ) : ℤ :=
  Int.floor (r * ((mx : ℚ) - (mn : ℚ) + 1) + (mn : ℚ))

/-- Every review of a session has non-empty body text. -/
def bodiesPos (s : ScrapeSession) : Prop :=
  ∀ r ∈ s.reviews, 0 < r.content.length

/-- Both storage tiers only hold sessions whose reviews all have
non-empty body text. -/
def storageBodiesPos (st : Storage) : Prop :=
  (∀ s, st.localTier = some s → bodiesPos s) ∧
  (∀ s, st.chromeTier = some s → bodiesPos s)

theorem length_pos_of_ne_empty (s : String) (h : s ≠ "") : 0 < s.length := by
  cases s with
  | mk data =>
    cases data with
    | nil => exact absurd rfl h
    | cons a l => simp [String.length]

theorem extractAux_body_ne (star : String) (pageNum now : Nat) :
    ∀ cards idx r, r ∈ extractAux star pageNum now idx cards → r.content ≠ "" := by
  intro cards
  induction cards with
  | nil => intro idx r hr; simp [extractAux] at hr
  | cons c cs ih =>
    intro idx r hr
    simp only [extractAux] at hr
    split at hr
    · split at hr
      next hc =>
        rcases List.mem_cons.mp hr with h | h
        · subst h; exact hc
        · exact ih (idx + 1) r h
      next hc => exact ih (idx + 1) r hr
    · exact ih (idx + 1) r hr

theorem extractReviews_body_pos (cards : List Card) (star : String)
    (pageNum now : Nat) (r : Review) (hr : r ∈ extractReviews cards star pageNum now) :
    0 < r.content.length :=
  length_pos_of_ne_empty _ (extractAux_body_ne star pageNum now cards 0 r hr)

theorem saveSession_bodiesPos (st : Storage) (s : ScrapeSession) (now : Nat)
    (hs : bodiesPos s) :
    storageBodiesPos (saveSession st s now).1 ∧ bodiesPos (saveSession st s now).2 := by
  refine ⟨⟨?_, ?_⟩, ?_⟩
  · intro s2 h2
    simp only [saveSession] at h2
    injection h2 with h2
    subst h2
    exact fun r hr => hs r hr
  · intro s2 h2
    simp only [saveSession] at h2
    injection h2 with h2
    subst h2
    exact fun r hr => hs r hr
  · exact fun r hr => hs r hr

theorem extractionStep_bodiesPos (st : Storage) (s : ScrapeSession)
    (p : PageState) (now : Nat) (hst : storageBodiesPos st) (hs : bodiesPos s) :
    storageBodiesPos (extractionStep st s p now).1 ∧
      bodiesPos (extractionStep st s p now).2.1 := by
  simp only [extractionStep]
  split
  · exact ⟨hst, hs⟩
  · have hall : bodiesPos { s with
        reviews := s.reviews ++
          extractReviews p.cards (expectedFilter s) (getCurrentPageNumber p) now,
        currentPage := getCurrentPageNumber p } := by
      intro r hr
      rcases List.mem_append.mp hr with h | h
      · exact hs r h
      · exact extractReviews_body_pos _ _ _ _ r h
    exact saveSession_bodiesPos st _ now hall

theorem switchToNextFilter_bodiesPos (st : Storage) (s : ScrapeSession)
    (p : PageState) (now : Nat) (_hst : storageBodiesPos st) (hs : bodiesPos s) :
    storageBodiesPos (switchToNextFilter st s p now).1 ∧
      bodiesPos (switchToNextFilter st s p now).2.1 := by
  simp only [switchToNextFilter]
  split
  · refine ⟨⟨?_, ?_⟩, ?_⟩
    · intro s2 h2; simp [clearSession] at h2
    · intro s2 h2; simp [clearSession] at h2
    · exact fun r hr => hs r hr
  · split
    · exact saveSession_bodiesPos st _ now (fun r hr => hs r hr)
    · exact saveSession_bodiesPos _ _ now
        (fun r hr => (saveSession_bodiesPos st _ now (fun r2 hr2 => hs r2 hr2)).2 r hr)

theorem paginationStep_bodiesPos (st : Storage) (s : ScrapeSession)
    (p : PageState) (now : Nat) (hst : storageBodiesPos st) (hs : bodiesPos s) :
    storageBodiesPos (paginationStep st s p now).1 ∧
      bodiesPos (paginationStep st s p now).2.1 := by
  simp only [paginationStep]
  split
  · split
    · split
      · exact switchToNextFilter_bodiesPos st s p now hst hs
      · exact ⟨hst, hs⟩
    · exact ⟨hst, hs⟩
  · exact switchToNextFilter_bodiesPos st s p now hst hs

theorem scrapeCurrentPage_bodiesPos (st : Storage) (s : ScrapeSession)
    (p : PageState) (now : Nat) (hst : storageBodiesPos st) (hs : bodiesPos s) :
    storageBodiesPos (scrapeCurrentPage st s p now).1 := by
  simp only [scrapeCurrentPage]
  split
  · exact hst
  · have h1 := extractionStep_bodiesPos st s p now hst hs
    exact (paginationStep_bodiesPos _ _ p now h1.1 h1.2).1

theorem getOrCreateSession_bodiesPos (st : Storage) (url : String) (now : Nat)
    (hst : storageBodiesPos st) : bodiesPos (getOrCreateSession st url now) := by
  simp only [getOrCreateSession]
  split
  · exact hst.1 _ (by assumption)
  · split
    · exact hst.2 _ (by assumption)
    · split <;> (intro r hr; simp at hr)

theorem tick_bodiesPos (env : Env) (p : PageState) (now : Nat)
    (hst : storageBodiesPos env.storage) :
    storageBodiesPos (tick env p now).1.storage := by
  simp only [tick]
  split
  · exact hst
  · split
    · exact hst
    · split
      · exact hst
      · split
        · exact hst
        · split
          · exact hst
          · have hs : bodiesPos (getOrCreateSession env.storage p.url now) :=
              getOrCreateSession_bodiesPos env.storage p.url now hst
            exact scrapeCurrentPage_bodiesPos env.storage _ p now hst hs

/-- A fully populated review card used as a concrete test input. -/
def sampleCard : Card :=
  { ok := true, idAttr := "r1", author := some "Ann",
    rating := some "5.0 out of 5 stars", title := some "Great",
    date := some "June 1, 2025", content := some "Loved it",
    verified := true, variant := some "Color: Red" }

/-- An empty storage state: no session in either tier, not scanning. -/
def emptyStorage : Storage :=
  { localTier := none, chromeTier := none, isScanning := false,
    delaySettings := none }

/-- A page with no review cards and no no-reviews marker (not ready). -/
def notReadyPage : PageState :=
  { url := "u", cards := [], noReviewsMarker := false, captcha := false,
    urlFilter := none, urlPage := none, urlPageAfterNext := none,
    nextEnabled := false, nextAnchor := false, histogramFilters := [],
    hrefFilters := [], dropdownOptions := none, isProductPage := false,
    seeAllLink := none }

/-- C2: for every rendered page, every record returned by extraction has
non-empty body text (empty-body cards are dropped, never emitted), and
every controller tick preserves the invariant that all reviews held in
either storage tier have non-empty body text — so every stored record
satisfies it. -/
theorem c2_extraction_body_nonempty :
    (∀ cards star pageNum now r, r ∈ extractReviews cards star pageNum now →
      0 < r.content.length) ∧
    (∀ env p now, storageBodiesPos env.storage →
      storageBodiesPos (tick env p now).1.storage) :=
  ⟨fun cards star pageNum now r hr =>
    extractReviews_body_pos cards star pageNum now r hr,
   fun env p now h => tick_bodiesPos env p now h⟩

/-- C2 witness: the theorem applied at a concrete card and a concrete tick. -/
theorem c2_witness :
    0 < (extractOne sampleCard "one_star" 1 0 0).content.length ∧
    storageBodiesPos (tick ⟨emptyStorage, ""⟩ notReadyPage 0).1.storage :=
  ⟨c2_extraction_body_nonempty.1 [sampleCard] "one_star" 1 0
      (extractOne sampleCard "one_star" 1 0 0) (by decide),
   c2_extraction_body_nonempty.2 ⟨emptyStorage, ""⟩ notReadyPage 0
      ⟨fun _ h => Option.noConfusion h, fun _ h => Option.noConfusion h⟩⟩

/-- An active persisted mid-scrape session. -/
def activeSession : ScrapeSession :=
  { isActive := true, reviews := [], currentStarIndex := 0, currentPage := 1,
    lastUrl := "", startedAt := 0, lastUpdated := 0 }

/-- Storage as it stands mid-scrape: the active session is persisted in
both tiers and the scanning flag is set. -/
def stopStorage : Storage :=
  { localTier := some activeSession, chromeTier := some activeSession,
    isScanning := true, delaySettings := none }

/-- A filtered review page whose histogram offers the next filter. -/
def stopPage : PageState :=
  { url := "https://a/product-reviews/X?filterByStar=one_star",
    cards := [sampleCard], noReviewsMarker := false, captcha := false,
    urlFilter := some "one_star", urlPage := some 1, urlPageAfterNext := none,
    nextEnabled := false, nextAnchor := false,
    histogramFilters := ["two_star"], hrefFilters := [],
    dropdownOptions := none, isProductPage := false, seeAllLink := none }

/-- C1: the stop signal does not flip a persisted session to inactive.
`handleStopScraping` only clears the `isScanning` key, which
`getOrCreateSession` consults only when no session exists in either tier;
with an active session persisted, the next tick still loads it as active,
mutates storage and performs a navigating side effect (a filter click). -/
theorem c1_stop_signal_not_observed :
    (handleStopScraping stopStorage).localTier = some activeSession ∧
    (getOrCreateSession (handleStopScraping stopStorage) stopPage.url 5).isActive
      = true ∧
    Effect.activateFilterClick "two_star"
      ∈ (tick ⟨handleStopScraping stopStorage, ""⟩ stopPage 5).2 ∧
    (tick ⟨handleStopScraping stopStorage, ""⟩ stopPage 5).1.storage
      ≠ handleStopScraping stopStorage := by
  refine ⟨rfl, rfl, ?_, ?_⟩ <;> decide

/-- C10: with no durably stored session, or a stored session holding zero
reviews, the export handler answers success = false, no csv field and the
exact error string; and its result depends only on the durable
(`chrome.storage.local`) tier, never on the fast tier. -/
theorem c10_export_empty_fails_durable_only :
    (∀ st : Storage,
      (st.chromeTier = none ∨ ∃ s, st.chromeTier = some s ∧ s.reviews = []) →
      handleDownloadCSV st =
        { success := false, csv := none, error := some "No reviews to export" }) ∧
    (∀ st1 st2 : Storage, st1.chromeTier = st2.chromeTier →
      handleDownloadCSV st1 = handleDownloadCSV st2) := by
  constructor
  · intro st h
    rcases h with h | ⟨s, hs, hrev⟩
    · simp [handleDownloadCSV, h]
    · simp [handleDownloadCSV, hs, hrev]
  · intro st1 st2 h
    simp [handleDownloadCSV, h]

/-- C10 witness: the theorem applied to the empty storage and to two
storages differing only in their fast tier. -/
theorem c10_witness :
    handleDownloadCSV emptyStorage =
      { success := false, csv := none, error := some "No reviews to export" } ∧
    handleDownloadCSV stopStorage =
      handleDownloadCSV { stopStorage with localTier := none } :=
  ⟨c10_export_empty_fails_durable_only.1 emptyStorage (Or.inl rfl),
   c10_export_empty_fails_durable_only.2 stopStorage
     { stopStorage with localTier := none } rfl⟩

theorem tick_reaches_scrape (env : Env) (p : PageState) (now : Nat)
    (h1 : (p.cards.isEmpty && !p.noReviewsMarker) = false)
    (h2 : p.captcha = false)
    (h3 : (getOrCreateSession env.storage p.url now).isActive = true)
    (h4 : (p.isProductPage && p.seeAllLink.isSome) = false)
    (h5 : ¬ p.url = env.lastProcessedUrl) :
    tick env p now =
      ({ storage := (scrapeCurrentPage env.storage
           { getOrCreateSession env.storage p.url now with lastUrl := p.url }
           p now).1,
         lastProcessedUrl := p.url },
       (scrapeCurrentPage env.storage
          { getOrCreateSession env.storage p.url now with lastUrl := p.url }
          p now).2.2) := by
  simp [tick, h1, h2, h3, h4, h5]

/-- With both tiers empty and the scanning flag off, a tick leaves the
whole environment unchanged and at most shows the captcha alert. -/
theorem tick_idle (env : Env) (p : PageState) (now : Nat)
    (h1 : env.storage.localTier = none) (h2 : env.storage.chromeTier = none)
    (h3 : env.storage.isScanning = false) :
    (tick env p now).1 = env ∧
      ∀ e ∈ (tick env p now).2, e = Effect.alertShown := by
  simp only [tick, getOrCreateSession, h1, h2, h3]
  split
  · exact ⟨rfl, by simp⟩
  · split
    · exact ⟨rfl, by simp⟩
    · exact ⟨rfl, by simp⟩

/-- `tick_idle` extended over any sequence of subsequent ticks. -/
theorem runTicks_idle :
    ∀ (ticks : List (PageState × Nat)) (env : Env),
      env.storage.localTier = none → env.storage.chromeTier = none →
      env.storage.isScanning = false →
      (runTicks env ticks).1 = env ∧
        ∀ e ∈ (runTicks env ticks).2, e = Effect.alertShown := by
  intro ticks
  induction ticks with
  | nil => intro env _ _ _; exact ⟨rfl, by simp [runTicks]⟩
  | cons pn rest ih =>
    intro env h1 h2 h3
    obtain ⟨hone, heff⟩ := tick_idle env pn.1 pn.2 h1 h2 h3
    have hrest := ih (tick env pn.1 pn.2).1
      (by rw [hone]; exact h1) (by rw [hone]; exact h2) (by rw [hone]; exact h3)
    constructor
    · show (runTicks (tick env pn.1 pn.2).1 rest).1 = env
      rw [hrest.1, hone]
    · intro e he
      simp only [runTicks] at he
      rcases List.mem_append.mp he with h | h
      · exact heff e h
      · exact hrest.2 e h

/-- C4: when `currentFilterIndex` increments past the last FilterSet
entry (from 4 to 5), the filter switch invokes the exporter exactly once
with the full accumulated record sequence, clears both storage tiers
exactly once, ends the scan, and every subsequent tick leaves the
environment unchanged (at most re-showing the captcha alert). -/
theorem c4_completion (st : Storage) (s : ScrapeSession) (p : PageState)
    (now : Nat) (h : s.currentStarIndex = 4) :
    (switchToNextFilter st s p now).2.2 =
      [Effect.download s.reviews, Effect.clearStorage, Effect.alertShown] ∧
    (switchToNextFilter st s p now).1.localTier = none ∧
    (switchToNextFilter st s p now).1.chromeTier = none ∧
    (switchToNextFilter st s p now).1.isScanning = false ∧
    ∀ (lastUrl : String) (ticks : List (PageState × Nat)),
      (runTicks ⟨(switchToNextFilter st s p now).1, lastUrl⟩ ticks).1 =
        ⟨(switchToNextFilter st s p now).1, lastUrl⟩ ∧
      ∀ e ∈ (runTicks ⟨(switchToNextFilter st s p now).1, lastUrl⟩ ticks).2,
        e = Effect.alertShown := by
  have hge : s.currentStarIndex + 1 ≥ STAR_FILTERS.length := by
    rw [h]; simp [STAR_FILTERS]
  have hsw : switchToNextFilter st s p now =
      (clearSession { st with isScanning := false },
        { s with currentStarIndex := s.currentStarIndex + 1, currentPage := 1 },
        [Effect.download s.reviews, Effect.clearStorage, Effect.alertShown]) := by
    simp [switchToNextFilter, hge]
  rw [hsw]
  refine ⟨rfl, rfl, rfl, rfl, ?_⟩
  intro lastUrl ticks
  exact runTicks_idle ticks _ rfl rfl rfl

/-- C4 witness: the theorem applied to a concrete completed session. -/
theorem c4_witness :
    (switchToNextFilter stopStorage
      { activeSession with
        currentStarIndex := 4,
        reviews := [extractOne sampleCard "five_star" 1 0 0] }
      stopPage 9).2.2 =
      [Effect.download [extractOne sampleCard "five_star" 1 0 0],
       Effect.clearStorage, Effect.alertShown] :=
  (c4_completion stopStorage
    { activeSession with
      currentStarIndex := 4,
      reviews := [extractOne sampleCard "five_star" 1 0 0] }
    stopPage 9 rfl).1

/-- A ready page on the expected filter showing page 3 with zero review
cards, whose next-page control is present but whose anchor click finds
nothing. -/
def zeroRecPage : PageState :=
  { url := "https://a/product-reviews/X?filterByStar=one_star&pageNumber=3",
    cards := [], noReviewsMarker := true, captcha := false,
    urlFilter := some "one_star", urlPage := some 3, urlPageAfterNext := none,
    nextEnabled := true, nextAnchor := false, histogramFilters := [],
    hrefFilters := [], dropdownOptions := none, isProductPage := false,
    seeAllLink := none }

/-- C3 counterexample: a tick that reaches the extraction step and gets
zero records performs no persistence at all — the storage is unchanged,
no save effect is emitted, and the stored session's `currentPage` stays 1
even though the observed page number is 3. This refutes the claim that
`currentPageIndex` is set and the session persisted on every tick that
reaches extraction, including zero-record extractions. -/
theorem c3_counterexample :
    extractReviews zeroRecPage.cards "one_star" 3 9 = [] ∧
    getCurrentPageNumber zeroRecPage = 3 ∧
    (tick ⟨stopStorage, ""⟩ zeroRecPage 9).2 =
      [Effect.logMsg "No reviews found on this page"] ∧
    (tick ⟨stopStorage, ""⟩ zeroRecPage 9).1.storage = stopStorage ∧
    activeSession.currentPage = 1 := by
  refine ⟨rfl, rfl, ?_, ?_, rfl⟩ <;> decide

/-- The session exactly as `scrapeCurrentPage` persists it after a
successful extraction: records appended, `currentPage` set to the
observed page number, `lastUpdated` stamped. -/
def postExtract (s : ScrapeSession) (p : PageState) (now : Nat) : ScrapeSession :=
  { s with
    reviews := s.reviews ++
      extractReviews p.cards (expectedFilter s) (getCurrentPageNumber p) now,
    currentPage := getCurrentPageNumber p,
    lastUpdated := now }

/-- C3 (amended): on a tick that reaches the extraction step (with normal
pagination afterwards), extraction returning at least one record appends
all returned records, sets `currentPage` to the observed page number and
persists the session to both tiers; extraction returning zero records is
only logged — no session mutation and no persistence happen. -/
theorem c3_extraction_persistence (st : Storage) (s : ScrapeSession)
    (p : PageState) (now : Nat)
    (h6 : ((getCurrentStarFilter p).isNone &&
      clickStarFilter p (expectedFilter s)) = false)
    (h7 : hasNextPage p = true)
    (h8 : clickNextPage p = true)
    (h9 : ¬ p.urlPageAfterNext.getD 1 = getCurrentPageNumber p) :
    (extractReviews p.cards (expectedFilter s) (getCurrentPageNumber p) now = [] →
      scrapeCurrentPage st s p now =
        (st, s, [Effect.logMsg "No reviews found on this page",
                 Effect.nextPageClick])) ∧
    (extractReviews p.cards (expectedFilter s) (getCurrentPageNumber p) now ≠ [] →
      scrapeCurrentPage st s p now =
        ({ st with localTier := some (postExtract s p now),
                   chromeTier := some (postExtract s p now) },
         postExtract s p now,
         [Effect.saveEff (postExtract s p now), Effect.nextPageClick])) := by
  constructor
  · intro hz
    simp [scrapeCurrentPage, extractionStep, paginationStep, saveSession,
      h6, h7, h8, h9, hz]
  · intro hz
    simp [scrapeCurrentPage, extractionStep, paginationStep, saveSession,
      postExtract, h6, h7, h8, h9, hz]

/-- A ready page with review cards, on the expected filter, whose next
control exists, whose anchor is clickable, and whose observed page number
changes after the click. -/
def paginatedPage : PageState :=
  { url := "https://a/product-reviews/X?filterByStar=one_star",
    cards := [sampleCard], noReviewsMarker := false, captcha := false,
    urlFilter := some "one_star", urlPage := some 1, urlPageAfterNext := some 2,
    nextEnabled := true, nextAnchor := true, histogramFilters := [],
    hrefFilters := [], dropdownOptions := none, isProductPage := false,
    seeAllLink := none }

/-- C3 witness: the amended theorem applied at a concrete page whose
extraction yields one record. -/
theorem c3_witness :
    scrapeCurrentPage stopStorage activeSession paginatedPage 9 =
      ({ stopStorage with
         localTier := some (postExtract activeSession paginatedPage 9),
         chromeTier := some (postExtract activeSession paginatedPage 9) },
       postExtract activeSession paginatedPage 9,
       [Effect.saveEff (postExtract activeSession paginatedPage 9),
        Effect.nextPageClick]) :=
  (c3_extraction_persistence stopStorage activeSession paginatedPage 9
    (by decide) rfl rfl (by decide)).2 (by decide)

/-- When the page shows no selected filter and clicking the expected
filter succeeds, the scrape stops at the redirect: no extraction, no
session change, only the filter click. -/
theorem scrape_filter_redirect (st : Storage) (s : ScrapeSession)
    (p : PageState) (now : Nat) (hfil : getCurrentStarFilter p = none)
    (hclick : clickStarFilter p (expectedFilter s) = true) :
    scrapeCurrentPage st s p now =
      (st, s, [Effect.activateFilterClick (expectedFilter s)]) := by
  simp [scrapeCurrentPage, hfil, hclick]

/-- A ready unfiltered page offering no filter control of any kind. -/
def unfilteredBarePage : PageState :=
  { url := "https://a/product-reviews/X",
    cards := [sampleCard], noReviewsMarker := false, captcha := false,
    urlFilter := none, urlPage := some 1, urlPageAfterNext := none,
    nextEnabled := false, nextAnchor := false, histogramFilters := [],
    hrefFilters := [], dropdownOptions := none, isProductPage := false,
    seeAllLink := none }

/-- C7 counterexample: on an unfiltered page where no activation strategy
is available, `clickStarFilter` fails and the tick falls through to
extraction — records are extracted and the session is mutated, refuting
the claim that every such tick stops without extraction or mutation. -/
theorem c7_counterexample :
    getCurrentStarFilter unfilteredBarePage = none ∧
    clickStarFilter unfilteredBarePage (expectedFilter activeSession) = false ∧
    (scrapeCurrentPage stopStorage activeSession unfilteredBarePage 9).2.1.reviews
      ≠ [] ∧
    (scrapeCurrentPage stopStorage activeSession unfilteredBarePage 9).1
      ≠ stopStorage := by
  refine ⟨rfl, rfl, ?_, ?_⟩ <;> decide

/-- C7 (amended): when the page shows no selected filter and activating
the expected filter succeeds, the controller performs exactly the filter
click and stops the tick with no extraction and no session mutation — in
particular a fresh session on an unfiltered ready page clicks the first
filter and extracts nothing that tick; when activation fails the tick
falls through instead. -/
theorem c7_filter_activation :
    (∀ (st : Storage) (s : ScrapeSession) (p : PageState) (now : Nat),
      getCurrentStarFilter p = none →
      clickStarFilter p (expectedFilter s) = true →
      scrapeCurrentPage st s p now =
        (st, s, [Effect.activateFilterClick (expectedFilter s)])) ∧
    (∀ (env : Env) (p : PageState) (now : Nat),
      env.storage.localTier = none → env.storage.chromeTier = none →
      env.storage.isScanning = true →
      (p.cards.isEmpty && !p.noReviewsMarker) = false →
      p.captcha = false → (p.isProductPage && p.seeAllLink.isSome) = false →
      ¬ p.url = env.lastProcessedUrl →
      getCurrentStarFilter p = none → clickStarFilter p "one_star" = true →
      tick env p now = ({ storage := env.storage, lastProcessedUrl := p.url },
        [Effect.activateFilterClick "one_star"])) := by
  constructor
  · exact fun st s p now hfil hclick =>
      scrape_filter_redirect st s p now hfil hclick
  · intro env p now ht1 ht2 ht3 h1 h2 h4 h5 hfil hclick
    have h3 : (getOrCreateSession env.storage p.url now).isActive = true := by
      simp [getOrCreateSession, ht1, ht2, ht3]
    rw [tick_reaches_scrape env p now h1 h2 h3 h4 h5]
    have hexp : expectedFilter
        { getOrCreateSession env.storage p.url now with lastUrl := p.url }
        = "one_star" := by
      simp [expectedFilter, getOrCreateSession, ht1, ht2, ht3, STAR_FILTERS]
    rw [scrape_filter_redirect _ _ _ _ hfil (by rw [hexp]; exact hclick), hexp]

/-- A ready unfiltered page whose histogram offers the first filter. -/
def unfilteredHistogramPage : PageState :=
  { url := "https://a/product-reviews/X",
    cards := [sampleCard], noReviewsMarker := false, captcha := false,
    urlFilter := none, urlPage := some 1, urlPageAfterNext := none,
    nextEnabled := false, nextAnchor := false,
    histogramFilters := ["one_star", "two_star"], hrefFilters := [],
    dropdownOptions := none, isProductPage := false, seeAllLink := none }

/-- C7 witness: the amended theorem applied at a concrete unfiltered page
with a histogram control. -/
theorem c7_witness :
    scrapeCurrentPage stopStorage activeSession unfilteredHistogramPage 9 =
      (stopStorage, activeSession, [Effect.activateFilterClick "one_star"]) :=
  c7_filter_activation.1 stopStorage activeSession unfilteredHistogramPage 9
    rfl rfl

theorem switch_index_reset (st : Storage) (s : ScrapeSession) (p : PageState)
    (now : Nat) :
    (switchToNextFilter st s p now).2.1.currentStarIndex
        = s.currentStarIndex + 1 ∧
      (switchToNextFilter st s p now).2.1.currentPage = 1 := by
  simp only [switchToNextFilter, saveSession]
  split
  · exact ⟨rfl, rfl⟩
  · split
    · exact ⟨rfl, rfl⟩
    · exact ⟨rfl, rfl⟩

theorem switch_no_next_click (st : Storage) (s : ScrapeSession) (p : PageState)
    (now : Nat) :
    Effect.nextPageClick ∉ (switchToNextFilter st s p now).2.2 := by
  simp only [switchToNextFilter, saveSession]
  split
  · simp
  · split
    · simp
    · simp

theorem extractionStep_star_index (st : Storage) (s : ScrapeSession)
    (p : PageState) (now : Nat) :
    (extractionStep st s p now).2.1.currentStarIndex = s.currentStarIndex ∧
      Effect.nextPageClick ∉ (extractionStep st s p now).2.2 := by
  simp only [extractionStep, saveSession]
  split
  · simp
  · simp

/-- C8: whenever `hasNextPage` is true and the next-page click succeeds
but the observed page number after the wait equals the one before the
click, the controller treats it as end of partition: it proceeds directly
to the filter switch (index incremented, page reset to 1) and clicks the
pager exactly once — no retry. -/
theorem c8_stalled_pager (st : Storage) (s : ScrapeSession) (p : PageState)
    (now : Nat)
    (h6 : ((getCurrentStarFilter p).isNone &&
      clickStarFilter p (expectedFilter s)) = false)
    (h7 : hasNextPage p = true)
    (h8 : clickNextPage p = true)
    (h9 : p.urlPageAfterNext.getD 1 = getCurrentPageNumber p) :
    (scrapeCurrentPage st s p now).2.1.currentStarIndex
        = s.currentStarIndex + 1 ∧
      (scrapeCurrentPage st s p now).2.1.currentPage = 1 ∧
      ((scrapeCurrentPage st s p now).2.2.count Effect.nextPageClick = 1) := by
  have hpag : ∀ (st1 : Storage) (s1 : ScrapeSession),
      paginationStep st1 s1 p now =
        ((switchToNextFilter st1 s1 p now).1,
         (switchToNextFilter st1 s1 p now).2.1,
         Effect.nextPageClick :: (switchToNextFilter st1 s1 p now).2.2) := by
    intro st1 s1
    simp [paginationStep, h7, h8, h9]
  have hscrape : scrapeCurrentPage st s p now =
      ((paginationStep (extractionStep st s p now).1
          (extractionStep st s p now).2.1 p now).1,
       (paginationStep (extractionStep st s p now).1
          (extractionStep st s p now).2.1 p now).2.1,
       (extractionStep st s p now).2.2 ++
         (paginationStep (extractionStep st s p now).1
            (extractionStep st s p now).2.1 p now).2.2) := by
    simp [scrapeCurrentPage, h6]
  rw [hscrape, hpag]
  refine ⟨?_, ?_, ?_⟩
  · rw [(switch_index_reset _ _ p now).1, (extractionStep_star_index st s p now).1]
  · exact (switch_index_reset _ _ p now).2
  · rw [List.count_append, List.count_eq_zero.mpr
      (extractionStep_star_index st s p now).2, List.count_cons_self,
      List.count_eq_zero.mpr (switch_no_next_click _ _ p now)]

/-- C8 witness: the theorem applied at a concrete stalled page (observed
page number still 1 after the click). -/
theorem c8_witness :
    (scrapeCurrentPage stopStorage activeSession
        { paginatedPage with urlPageAfterNext := some 1 } 9).2.1.currentStarIndex
      = 1 ∧
    (scrapeCurrentPage stopStorage activeSession
        { paginatedPage with urlPageAfterNext := some 1 } 9).2.2.count
        Effect.nextPageClick = 1 :=
  ⟨(c8_stalled_pager stopStorage activeSession
      { paginatedPage with urlPageAfterNext := some 1 } 9
      (by decide) rfl rfl (by decide)).1,
   (c8_stalled_pager stopStorage activeSession
      { paginatedPage with urlPageAfterNext := some 1 } 9
      (by decide) rfl rfl (by decide)).2.2⟩

/-- Spec-side combinator: a double-quoted CSV field. -/
def quoteField (s : String) : String := "\"" ++ s ++ "\""

/-- Spec-side row description (amended): Star Filter, Page and Verified
are bare; ID, Author, Title and Review Body are quoted with embedded
quotes doubled; Rating, Date and Variant are quoted verbatim (quotes not
doubled); newlines are collapsed only in the body. -/
def csvRowSpec (r : Review) : String :=
  String.intercalate ","
    [ jsOr r.starFilter "N/A",
      (match r.pageNumber with | some n => toString n | none => "N/A"),
      quoteField (escapeQuotes r.id),
      quoteField (escapeQuotes r.author),
      quoteField r.starRating,
      quoteField (escapeQuotes r.title),
      quoteField r.date,
      quoteField r.variant,
      (if r.verified then "Yes" else "No"),
      quoteField (collapseNewlines (escapeQuotes r.content)) ]

/-- A review whose star-filter label is plain and whose rating embeds a
double quote. -/
def trickyReview : Review :=
  { id := "idx", author := "Bob", starRating := "4\"", title := "T",
    date := "D", content := "line1\nline2", verified := true,
    variant := "V", images := [], starFilter := some "1★",
    pageNumber := some 2 }

/-- C5 counterexample: the Star Filter cell is emitted bare (not
double-quoted), and the Rating cell is quoted without doubling its
embedded quote — refuting the claim that every field other than Page and
Verified is double-quoted with embedded quotes doubled. -/
theorem c5_counterexample :
    (csvRowCells trickyReview).getD 0 "" = "1★" ∧
    (csvRowCells trickyReview).getD 0 "" ≠ quoteField "1★" ∧
    (csvRowCells trickyReview).getD 4 "" = "\"4\"\"" ∧
    (csvRowCells trickyReview).getD 4 "" ≠ quoteField (escapeQuotes "4\"") := by
  refine ⟨?_, ?_, ?_, ?_⟩ <;> decide

/-- C5 (amended): the serialized CSV is the byte-order-mark followed by
the exact header row and one row per record in accumulation order, where
Star Filter, Page and Verified are bare, ID, Author, Title and Review
Body are double-quoted with embedded quotes doubled, Rating, Date and
Variant are double-quoted verbatim, and newlines are collapsed to spaces
in the body only. -/
theorem c5_csv_format :
    (∀ rs : List Review, csvWithBom rs =
      "\uFEFF" ++ String.intercalate "\n" (csvHeader :: rs.map csvRowSpec)) ∧
    csvHeader =
      "Star Filter,Page,ID,Author,Rating,Title,Date,Variant,Verified,Review Body" ∧
    (∀ rs : List Review, (csvRows rs).length = rs.length + 1) ∧
    (∀ rs : List Review, (csvWithBom rs).data.head? = some (Char.ofNat 0xFEFF)) := by
  refine ⟨fun rs => rfl, by decide, fun rs => by simp [csvRows], fun rs => ?_⟩
  show (bom ++ csvContentStr rs).data.head? = _
  cases hs : csvContentStr rs with
  | mk l => rfl

/-- A card with no rating element and an always-throwing card. -/
def noRatingCard : Card :=
  { ok := true, idAttr := "r2", author := some "Bob", rating := none,
    title := some "T", date := some "D", content := some "Body",
    verified := false, variant := some "V" }

/-- A card whose field accesses throw (caught per card). -/
def badCard : Card :=
  { ok := false, idAttr := "", author := none, rating := none,
    title := none, date := none, content := none, verified := false,
    variant := none }

/-- C6 counterexample: a card with no rating element yields a record with
`starRating = "N/A"`, not the empty string the claim requires. -/
theorem c6_counterexample :
    extractReviews [noRatingCard] "one_star" 1 0 =
      [extractOne noRatingCard "one_star" 1 0 0] ∧
    (extractOne noRatingCard "one_star" 1 0 0).starRating = "N/A" ∧
    (extractOne noRatingCard "one_star" 1 0 0).starRating ≠ "" := by
  refine ⟨?_, rfl, ?_⟩ <;> decide

/-- C6 (amended): every extracted record's fields degrade via independent
fallbacks — missing author becomes Anonymous, missing rating becomes N/A,
missing title, date and variant become the empty string — and a card
whose parsing throws is skipped in place: extraction of the surrounding
cards proceeds unchanged (with the card still counted in the synthetic-id
index). -/
theorem c6_field_fallbacks :
    (∀ (c : Card) (star : String) (pageNum idx now : Nat),
      (extractOne c star pageNum idx now).author = jsOr c.author "Anonymous" ∧
      (extractOne c star pageNum idx now).starRating = jsOr c.rating "N/A" ∧
      (extractOne c star pageNum idx now).title = jsOr c.title "" ∧
      (extractOne c star pageNum idx now).date = jsOr c.date "" ∧
      (extractOne c star pageNum idx now).variant = jsOr c.variant "") ∧
    (∀ (star : String) (pageNum now : Nat) (cs1 : List Card) (c : Card)
       (cs2 : List Card) (idx : Nat), c.ok = false →
      extractAux star pageNum now idx (cs1 ++ c :: cs2) =
        extractAux star pageNum now idx cs1 ++
          extractAux star pageNum now (idx + cs1.length + 1) cs2) := by
  constructor
  · exact fun c star pageNum idx now => ⟨rfl, rfl, rfl, rfl, rfl⟩
  · intro star pageNum now cs1 c cs2
    induction cs1 with
    | nil =>
      intro idx hok
      simp [extractAux, hok]
    | cons cHead cs1 ih =>
      intro idx hok
      have harith : idx + 1 + cs1.length + 1 = idx + (cs1.length + 1) + 1 := by
        omega
      simp only [List.cons_append, extractAux, List.length_cons, List.append_eq]
      split
      · split
        · rw [ih (idx + 1) hok, harith]
          simp
        · rw [ih (idx + 1) hok, harith]
      · rw [ih (idx + 1) hok, harith]

/-- C6 witness: the fallback equations at the no-rating card, and card
skipping at a concrete three-card page whose middle card throws. -/
theorem c6_witness :
    (extractOne noRatingCard "one_star" 1 0 0).starRating
        = jsOr noRatingCard.rating "N/A" ∧
    extractAux "one_star" 1 0 0 ([sampleCard] ++ badCard :: [sampleCard]) =
      extractAux "one_star" 1 0 0 [sampleCard] ++
        extractAux "one_star" 1 0 2 [sampleCard] :=
  ⟨(c6_field_fallbacks.1 noRatingCard "one_star" 1 0 0).2.1,
   c6_field_fallbacks.2 "one_star" 1 0 [sampleCard] badCard [sampleCard] 0 rfl⟩

/-- C9 counterexample: with the default configuration (min 2000, max
5000) the wait computed before a page advance can never equal the
configured maximum — the draw `Math.floor(random * (max - min)) + min`
covers only `[min, max)`, refuting the claimed inclusive range. -/
theorem c9_counterexample :
    ¬ ∃ r : ℚ, 0 ≤ r ∧ r < 1 ∧ waitTime 2000 5000 r = 5000 := by
  rintro ⟨r, h0, h1, he⟩
  have hx : r * (((5000 : Nat) : ℚ) - ((2000 : Nat) : ℚ)) < 3000 := by
    push_cast
    nlinarith
  have hfl : Int.floor (r * (((5000 : Nat) : ℚ) - ((2000 : Nat) : ℚ)))
      < (3000 : ℤ) := by
    apply Int.floor_lt.mpr
    push_cast
    linarith
  unfold waitTime at he
  omega

/-- C9 (amended): the wait before each page advance is an integer drawn
from the half-open range `[min, max)` (every such integer is attainable),
with defaults min 2000 / max 5000 when no configuration is stored, and a
stored configuration with non-zero fields is used as-is (unclamped). -/
theorem c9_wait_range :
    (∀ (mn mx : Nat) (r : ℚ), mn < mx → 0 ≤ r → r < 1 →
      (mn : ℤ) ≤ waitTime mn mx r ∧ waitTime mn mx r < mx) ∧
    (∀ (mn mx : Nat) (k : ℤ), mn < mx → (mn : ℤ) ≤ k → k < mx →
      ∃ r : ℚ, 0 ≤ r ∧ r < 1 ∧ waitTime mn mx r = k) ∧
    (∀ st : Storage, st.delaySettings = none →
      effectiveMinDelay st = 2000 ∧ effectiveMaxDelay st = 5000) ∧
    (∀ (st : Storage) (d : DelayCfg), st.delaySettings = some d →
      d.min ≠ 0 → d.max ≠ 0 →
      effectiveMinDelay st = d.min ∧ effectiveMaxDelay st = d.max) := by
  refine ⟨?_, ?_, ?_, ?_⟩
  · intro mn mx r hlt h0 h1
    have hmnmx : (mn : ℚ) < (mx : ℚ) := by exact_mod_cast hlt
    constructor
    · have h00 : (0 : ℚ) ≤ r * ((mx : ℚ) - (mn : ℚ)) := by
        apply mul_nonneg h0
        linarith
      have hfl : (0 : ℤ) ≤ Int.floor (r * ((mx : ℚ) - (mn : ℚ))) :=
        Int.floor_nonneg.mpr h00
      unfold waitTime
      omega
    · have hux : r * ((mx : ℚ) - (mn : ℚ)) < (mx : ℚ) - (mn : ℚ) := by
        nlinarith
      have hfl : Int.floor (r * ((mx : ℚ) - (mn : ℚ))) < (mx : ℤ) - (mn : ℤ) := by
        apply Int.floor_lt.mpr
        push_cast
        linarith
      unfold waitTime
      omega
  · intro mn mx k hlt hk1 hk2
    have hmnmx : (mn : ℚ) < (mx : ℚ) := by exact_mod_cast hlt
    have hd : ((mx : ℚ) - (mn : ℚ)) ≠ 0 := by linarith
    refine ⟨((k : ℚ) - (mn : ℚ)) / ((mx : ℚ) - (mn : ℚ)), ?_, ?_, ?_⟩
    · apply div_nonneg
      · have : (mn : ℚ) ≤ (k : ℚ) := by exact_mod_cast hk1
        linarith
      · linarith
    · rw [div_lt_one (by linarith)]
      have : (k : ℚ) < (mx : ℚ) := by exact_mod_cast hk2
      linarith
    · unfold waitTime
      rw [div_mul_cancel₀ _ hd]
      have hcast : (k : ℚ) - (mn : ℚ) = ((k - (mn : ℤ) : ℤ) : ℚ) := by
        push_cast
        ring
      rw [hcast, Int.floor_intCast]
      omega
  · intro st h
    simp [effectiveMinDelay, effectiveMaxDelay, h]
  · intro st d h hmin hmax
    simp [effectiveMinDelay, effectiveMaxDelay, h, hmin, hmax]

/-- C9 witness: range bounds at the default configuration with draw 0,
and the stored defaults of the empty storage. -/
theorem c9_witness :
    ((2000 : ℤ) ≤ waitTime 2000 5000 0 ∧ waitTime 2000 5000 0 < 5000) ∧
    effectiveMinDelay emptyStorage = 2000 ∧
    effectiveMaxDelay emptyStorage = 5000 :=
  ⟨c9_wait_range.1 2000 5000 0 (by decide) (le_refl 0) zero_lt_one,
   c9_wait_range.2.2.1 emptyStorage rfl⟩

end Scraper
